import Mathlib

/-!
# TaskBite — verification of the authentication / dashboard contract

Shallow embedding of the TaskBite client screens (React Native source under
`src/`) and of the Auth/Task-Store backend contract.  The backend (Flask) is
not part of the source tree, so its operations are modelled from the spec and
marked as such in their doc comments.  Client handlers are embedded as total
functions from the component's form state and the observed HTTP outcome to the
run's effects (requests issued, alert shown, error state set).
-/

namespace TaskBite

/-- An HTTP request as built by the client: URL, method, headers and a
JSON-object body represented as ordered key/value pairs of strings. -/
structure HttpRequest where
  url : String
  method : String
  headers : List (String × String)
  body : List (String × String)
  deriving Repr, DecidableEq

/-- The parsed JSON body of an auth response, as the login handlers read it:
a `success` flag and an `error` string. -/
structure LoginBody where
  success : Bool
  error : String
  deriving Repr, DecidableEq

/-- What the transport layer delivers to a handler: either the request itself
failed (no response at all), or a response with an HTTP status code and a body
that may fail to parse as JSON (`none`). -/
inductive HttpResult where
  | networkError : HttpResult
  | response (status : Nat) (body : Option LoginBody) : HttpResult
  deriving Repr, DecidableEq

/-- An alert box shown via `Alert.alert`.  The message is `Option String`
because JavaScript may interpolate `undefined` into it (`none`). -/
structure AlertMsg where
  title : String
  message : Option String
  deriving Repr, DecidableEq

/-- The observable effects of one run of a fetch-based handler: the requests
it issued and the alert it showed. -/
structure HandlerRun where
  requests : List HttpRequest
  alert : AlertMsg
  deriving Repr, DecidableEq

/-- The observable effects of one run of a handler that additionally owns an
`error` state hook: `errorSet = some m` means `setError m` was called during
the run (`m = none` models `setError(undefined)`). -/
structure HandlerRunE where
  requests : List HttpRequest
  errorSet : Option (Option String)
  alert : AlertMsg
  deriving Repr, DecidableEq

/-- Local state of the login screens: the two text inputs and the
"remember me" checkbox. -/
structure LoginFormState where
  email : String
  password : String
  rememberMe : Bool
  deriving Repr, DecidableEq

/-- The login request both login screens build: POST of `{email, password}`. -/
def loginRequest (email password : String) : HttpRequest :=
  { url := "http://127.0.0.1:8000/api/auth/login"
    method := "POST"
    headers := [("Content-Type", "application/json")]
    body := [("email", email), ("password", password)] }

/-- The forgot-password request: POST of `{email}`. -/
def forgotPasswordRequest (email : String) : HttpRequest :=
  { url := "http://127.0.0.1:8000/api/auth/forgot-password"
    method := "POST"
    headers := [("Content-Type", "application/json")]
    body := [("email", email)] }

namespace LoginScreen

/-- `handleLogin` from `src/screens/LoginScreen.js`.  It issues one fetch to
the login endpoint with `{email, password}`; `fetch` resolves on every HTTP
status, so the handler branches only on `data.success`: success alert on
`true`, `Alert.alert('Error', data.error)` on `false`, and the catch block
(`'Failed to login'`) on a network error or a body that fails to parse. -/
def handleLogin (s : LoginFormState) (r : HttpResult) : HandlerRun :=
  { requests := [loginRequest s.email s.password]
    alert :=
      match r with
      | .networkError => { title := "Error", message := some "Failed to login" }
      | .response _ none => { title := "Error", message := some "Failed to login" }
      | .response _ (some b) =>
        if b.success then
          { title := "Login Successful", message := some ("Email: " ++ s.email) }
        else
          { title := "Error", message := some b.error } }

/-- `handleForgotPassword` from `src/screens/LoginScreen.js`: one fetch of
`{email}` to the forgot-password endpoint; fixed success alert on
`data.success`, `data.error` otherwise, catch block on failure. -/
def handleForgotPassword (s : LoginFormState) (r : HttpResult) : HandlerRun :=
  { requests := [forgotPasswordRequest s.email]
    alert :=
      match r with
      | .networkError =>
        { title := "Error", message := some "Failed to send password reset email" }
      | .response _ none =>
        { title := "Error", message := some "Failed to send password reset email" }
      | .response _ (some b) =>
        if b.success then
          { title := "Forgot Password", message := some "Password reset email sent" }
        else
          { title := "Error", message := some b.error } }

end LoginScreen

namespace Part001

/-- `handleLogin` from `src/unnamed/part_001` (first draft in the file).  It
posts `{email, password}` with axios.  axios rejects the promise whenever the
status is outside 2xx, so the `success`/`error` destructuring only runs on a
2xx response; on a 2xx body that is not JSON, axios leaves the raw string in
`response.data`, the destructured `success` is `undefined` (falsy) and the
else branch runs with `error = undefined`.  Every rejection lands in the
catch block: `setError('Failed to login')` and the same generic alert. -/
def handleLogin (s : LoginFormState) (r : HttpResult) : HandlerRunE :=
  { requests := [loginRequest s.email s.password]
    errorSet :=
      match r with
      | .networkError => some (some "Failed to login")
      | .response status body =>
        if 200 ≤ status ∧ status < 300 then
          match body with
          | some b => if b.success then none else some (some b.error)
          | none => some none
        else some (some "Failed to login")
    alert :=
      match r with
      | .networkError => { title := "Error", message := some "Failed to login" }
      | .response status body =>
        if 200 ≤ status ∧ status < 300 then
          match body with
          | some b =>
            if b.success then
              { title := "Login Successful", message := some ("Email: " ++ s.email) }
            else
              { title := "Error", message := some b.error }
          | none => { title := "Error", message := none }
        else { title := "Error", message := some "Failed to login" } }

/-- `handleForgotPassword` from `src/unnamed/part_001` (first draft): this one
uses `fetch`, so it behaves like the `LoginScreen.js` version, with its own
error-state hook. -/
def handleForgotPassword (s : LoginFormState) (r : HttpResult) : HandlerRunE :=
  { requests := [forgotPasswordRequest s.email]
    errorSet :=
      match r with
      | .networkError => some (some "Failed to send password reset email")
      | .response _ none => some (some "Failed to send password reset email")
      | .response _ (some b) => if b.success then none else some (some b.error)
    alert :=
      match r with
      | .networkError =>
        { title := "Error", message := some "Failed to send password reset email" }
      | .response _ none =>
        { title := "Error", message := some "Failed to send password reset email" }
      | .response _ (some b) =>
        if b.success then
          { title := "Forgot Password", message := some "Password reset email sent" }
        else
          { title := "Error", message := some b.error } }

end Part001

/-- What one run of `AuthScreen.handleCreateAccount` ends in. -/
inductive AuthHandlerOutcome where
  | navigated (screen : String) : AuthHandlerOutcome
  | errorShown (msg : Option String) : AuthHandlerOutcome
  | crash : AuthHandlerOutcome
  deriving Repr, DecidableEq

/-- What the axios transport delivers to `AuthScreen.handleCreateAccount`:
a 2xx response, a rejection carrying an HTTP error response whose JSON body
may or may not have a `message` field, or a rejection with no response at all
(network failure), in which case `error.response` is `undefined`. -/
inductive AxiosOutcome where
  | ok : AxiosOutcome
  | httpError (message : Option String) : AxiosOutcome
  | networkError : AxiosOutcome
  deriving Repr, DecidableEq

namespace AuthScreen

/-- `handleCreateAccount` from `src/screens/AuthScreen.js`.  On a 2xx axios
response it navigates to Login; every rejection runs
`setError(error.response.data.message)` with no guard on `error.response`:
when the rejection carries an HTTP response the (possibly `undefined`)
`message` field is shown, but on a network failure `error.response` is
`undefined` and reading `.data` of it throws a TypeError out of the catch
block — the run ends in `crash`. -/
def handleCreateAccount (r : AxiosOutcome) : AuthHandlerOutcome :=
  match r with
  | .ok => .navigated "Login"
  | .httpError m => .errorShown m
  | .networkError => .crash

end AuthScreen

/-- Local state of the `part_003` registration screen: four text inputs and a
"remember me" checkbox. -/
structure AuthFormState where
  name : String
  email : String
  password : String
  repeatPassword : String
  rememberMe : Bool
  deriving Repr, DecidableEq

/-- The register request built by the registration handlers: POST of
`{name, email, password}`. -/
def registerRequest (name email password : String) : HttpRequest :=
  { url := "http://127.0.0.1:8000/api/auth/register"
    method := "POST"
    headers := [("Content-Type", "application/json")]
    body := [("name", name), ("email", email), ("password", password)] }

/-- The first step of `part_003`'s `handleCreateAccount`: either it stops at a
client-side validation error or it issues the register request. -/
inductive CreateAccountStep where
  | validationError (msg : String) : CreateAccountStep
  | request (r : HttpRequest) : CreateAccountStep
  deriving Repr, DecidableEq

namespace Part003

/-- The request-building front of `handleCreateAccount` from
`src/unnamed/part_003`.  JavaScript `!s` on a string is true exactly for the
empty string, so the handler stops with 'All fields are required.' when any of
the four fields is empty, stops with 'Passwords do not match.' when the two
password fields differ, and otherwise posts `{name, email, password}` (the
repeat-password field is not part of the body).  There is no check of the
email's format. -/
def handleCreateAccountRequest (s : AuthFormState) : CreateAccountStep :=
  if s.name = "" ∨ s.email = "" ∨ s.password = "" ∨ s.repeatPassword = "" then
    .validationError "All fields are required."
  else if s.password ≠ s.repeatPassword then
    .validationError "Passwords do not match."
  else
    .request (registerRequest s.name s.email s.password)

end Part003

namespace Part005

/-- The hardcoded module-level `notes` map of `src/unnamed/part_005`,
keyed by date string. -/
def notes : List (String × String) :=
  [("2024-08-10", "Meeting with team"), ("2024-08-12", "Doctor appointment")]

/-- The hardcoded module-level `todos` map of `src/unnamed/part_005`. -/
def todos : List (String × List String) :=
  [("2024-08-10", ["Finish project report", "Call the client"]),
   ("2024-08-12", ["Buy groceries"])]

/-- The argument of `handleDayPress`: the calendar day object, of which the
handler reads only `dateString`. -/
structure CalendarDay where
  dateString : String
  deriving Repr, DecidableEq

/-- `handleDayPress` from `src/unnamed/part_005` as a transition on the
`selectedDate` state: `setSelectedDate(day.dateString)`. -/
def handleDayPress (_s : String) (day : CalendarDay) : String :=
  day.dateString

/-- The marking object `{ selected: true, marked: true, selectedColor: 'blue' }`. -/
structure DayMarking where
  selected : Bool
  marked : Bool
  selectedColor : String
  deriving Repr, DecidableEq

/-- The `markedDates` prop built in `part_005`'s render: a one-key object
whose computed key is the current `selectedDate`. -/
def markedDates (selectedDate : String) : List (String × DayMarking) :=
  [(selectedDate, { selected := true, marked := true, selectedColor := "blue" })]

/-- The notes line of the render, `notes[selectedDate] || 'No notes for this
day'`: a missing key gives `undefined`, and `||` falls through on any falsy
value, so an empty-string note would also fall back. -/
def notesText (m : List (String × String)) (d : String) : String :=
  match m.lookup d with
  | some s => if s = "" then "No notes for this day" else s
  | none => "No notes for this day"

/-- The to-do block of the render.  `undefinedAccess` marks the place where
the code would read `.map` of `undefined`. -/
inductive TodoView where
  | ok (lines : List String) : TodoView
  | undefinedAccess : TodoView
  deriving Repr, DecidableEq

/-- The to-do block, `(todos[selectedDate] || []).length === 0 ? <fallback> :
todos[selectedDate].map(...)`: the guard defaults a missing entry to `[]`, and
the map branch re-reads `todos[selectedDate]` without the default, which is
an undefined access exactly when the guard let a missing key through. -/
def todosView (m : List (String × List String)) (d : String) : TodoView :=
  if ((m.lookup d).getD []).length = 0 then
    .ok ["No to-dos for this day"]
  else
    match m.lookup d with
    | some t => .ok (t.map (fun todo => "- " ++ todo))
    | none => .undefinedAccess

/-- Everything `DashboardScreen` renders for a given `selectedDate`, plus the
requests the component issues (it has no fetch or axios call anywhere, so the
list is empty by construction of the source). -/
structure DashboardView where
  requests : List HttpRequest
  dateText : String
  notesLine : String
  todoLines : TodoView
  deriving Repr, DecidableEq

/-- The render of `DashboardScreen` from `src/unnamed/part_005`: all content
comes from the two hardcoded maps above; no user identity, token or backend
call appears anywhere in the component. -/
def DashboardScreen (selectedDate : String) : DashboardView :=
  { requests := []
    dateText := "Selected Date: " ++ selectedDate
    notesLine := notesText notes selectedDate
    todoLines := todosView todos selectedDate }

end Part005

namespace Backend

/-- Modelled from the spec: the Flask backend is not part of the source tree
(only the client and the README mention it), so the Auth/Task-Store state is
taken from the spec's data model — users with unique emails and hashed
passwords, and notes/todos scoped to an owner. -/
structure User where
  name : String
  email : String
  passwordHash : String
  deriving Repr, DecidableEq

/-- Modelled from the spec: a note owned by a user, keyed by date. -/
structure Note where
  owner : String
  date : String
  body : String
  deriving Repr, DecidableEq

/-- Modelled from the spec: a to-do owned by a user, keyed by date. -/
structure Todo where
  owner : String
  date : String
  text : String
  completed : Bool
  deriving Repr, DecidableEq

/-- Modelled from the spec: the record stores behind the two services. -/
structure ServiceState where
  users : List User
  notes : List Note
  todos : List Todo
  deriving Repr, DecidableEq

/-- Modelled from the spec: stand-in for the slow salted password hash; no
claim depends on its properties. -/
def hashPassword (p : String) : String :=
  "hashed:" ++ p

/-- Modelled from the spec: the spec does not pin the email format, so
well-formedness is modelled as the minimal check of containing an `@`.  Both
register calls of a duplicate pair share the email, so the claims below do
not depend on the choice. -/
def emailWellFormed (e : String) : Bool :=
  e.data.contains '@'

/-- Whether some user record already holds this email. -/
def emailRegistered (s : ServiceState) (e : String) : Bool :=
  s.users.any (fun u => u.email = e)

/-- Outcome of `register`, per the spec's error taxonomy. -/
inductive RegisterOutcome where
  | success : RegisterOutcome
  | validationError : RegisterOutcome
  | conflictError : RegisterOutcome
  deriving Repr, DecidableEq

/-- Modelled from the spec: `register(name, email, password)` "fails with
ValidationError when any field missing or email malformed; fails with
ConflictError when email already registered; otherwise hashes password,
stores User".  The two failure clauses are checked in the spec's listing
order, validation first. -/
def register (s : ServiceState) (name email password : String) :
    RegisterOutcome × ServiceState :=
  if name = "" ∨ email = "" ∨ password = "" ∨ emailWellFormed email = false then
    (.validationError, s)
  else if emailRegistered s email then
    (.conflictError, s)
  else
    (.success,
      { s with users := { name := name, email := email,
                          passwordHash := hashPassword password } :: s.users })

/-- The success-shaped response body the spec gives `forgotPassword`. -/
structure ApiResponse where
  success : Bool
  deriving Repr, DecidableEq

/-- Modelled from the spec: `forgotPassword(email)` "always returns
success-shaped response to avoid leaking account existence; if the email
matches a User, issues a reset token/email out of band".  The out-of-band
mail effect is the second component. -/
def forgotPassword (s : ServiceState) (email : String) :
    ApiResponse × Option String :=
  ({ success := true }, if emailRegistered s email then some email else none)

/-- Modelled from the spec: the aggregation behind `GET /api/dashboard` —
the caller's own notes and todos. -/
def dashboardFor (s : ServiceState) (owner : String) : List Note × List Todo :=
  (s.notes.filter (fun n => n.owner = owner),
   s.todos.filter (fun t => t.owner = owner))

/-- Result of the dashboard endpoint: the aggregation, or AuthError. -/
inductive DashboardResult where
  | ok (notes : List Note) (todos : List Todo) : DashboardResult
  | authError : DashboardResult
  deriving Repr, DecidableEq

/-- Modelled from the spec: `GET /api/dashboard` requires an authenticated
owner identity from the session token; a missing token fails with AuthError,
otherwise the caller's own records are aggregated. -/
def dashboardEndpoint (s : ServiceState) (token : Option String) :
    DashboardResult :=
  match token with
  | none => .authError
  | some owner => .ok (dashboardFor s owner).1 (dashboardFor s owner).2

/-- The empty backend store, base state of the concrete runs below. -/
def emptyState : ServiceState :=
  { users := [], notes := [], todos := [] }

end Backend

/-! ## Theorems -/

/-- C5 (code bug): `AuthScreen.handleCreateAccount` reads
`error.response.data.message` without checking that `error.response` exists,
so an axios rejection with no response — a plain network failure — makes the
catch block itself throw: the run ends in `crash`, not in an error message,
while an HTTP error rejection is converted to a shown message. -/
theorem c5_authscreen_network_crash :
    AuthScreen.handleCreateAccount .networkError = .crash ∧
    AuthScreen.handleCreateAccount (.httpError (some "Email taken")) =
      .errorShown (some "Email taken") :=
  ⟨rfl, rfl⟩

/-- C7: the "remember me" checkbox is UI-only.  Two runs of any of the login
or forgot-password handlers (both screens) that differ only in `rememberMe`
issue identical requests, and neither request body has a `rememberMe` key. -/
theorem c7_remember_me_ui_only
    (email password : String) (b1 b2 : Bool) (r : HttpResult) :
    (LoginScreen.handleLogin { email := email, password := password, rememberMe := b1 } r) =
      (LoginScreen.handleLogin { email := email, password := password, rememberMe := b2 } r) ∧
    (LoginScreen.handleForgotPassword { email := email, password := password, rememberMe := b1 } r) =
      (LoginScreen.handleForgotPassword { email := email, password := password, rememberMe := b2 } r) ∧
    (Part001.handleLogin { email := email, password := password, rememberMe := b1 } r) =
      (Part001.handleLogin { email := email, password := password, rememberMe := b2 } r) ∧
    (Part001.handleForgotPassword { email := email, password := password, rememberMe := b1 } r) =
      (Part001.handleForgotPassword { email := email, password := password, rememberMe := b2 } r) ∧
    ((loginRequest email password).body.map Prod.fst).contains "rememberMe" = false ∧
    ((forgotPasswordRequest email).body.map Prod.fst).contains "rememberMe" = false :=
  ⟨rfl, rfl, rfl, rfl, rfl, rfl⟩

/-- C2: `forgotPassword` (modelled from the spec) answers with the very same
success-shaped response for an email that matches a registered user and for
one that matches none: account existence is not observable from the
response. -/
theorem c2_forgot_password_no_leak
    (s : Backend.ServiceState) (e1 e2 : String)
    (_h1 : Backend.emailRegistered s e1 = true)
    (_h2 : Backend.emailRegistered s e2 = false) :
    (Backend.forgotPassword s e1).1 = (Backend.forgotPassword s e2).1 ∧
    (Backend.forgotPassword s e1).1 = { success := true } :=
  ⟨rfl, rfl⟩

/-- Witness for C2: a store holding exactly `jane@x.com`, probed with the
registered email and with an unknown one. -/
theorem c2_witness :
    (Backend.forgotPassword
        { users := [{ name := "Jane", email := "jane@x.com", passwordHash := "h" }],
          notes := [], todos := [] } "jane@x.com").1 =
      (Backend.forgotPassword
        { users := [{ name := "Jane", email := "jane@x.com", passwordHash := "h" }],
          notes := [], todos := [] } "nobody@x.com").1 ∧
    (Backend.forgotPassword
        { users := [{ name := "Jane", email := "jane@x.com", passwordHash := "h" }],
          notes := [], todos := [] } "jane@x.com").1 = { success := true } :=
  c2_forgot_password_no_leak _ "jane@x.com" "nobody@x.com" (by decide) (by decide)

/-- C8: `part_003`'s registration handler issues the register request exactly
when all four fields are non-empty and the two password fields agree, and the
body it then sends has exactly the keys `name`, `email`, `password` — never
`repeatPassword`. -/
theorem c8_register_request_gating (s : AuthFormState) :
    (s.name ≠ "" ∧ s.email ≠ "" ∧ s.password ≠ "" ∧ s.repeatPassword ≠ "" ∧
        s.password = s.repeatPassword →
      Part003.handleCreateAccountRequest s =
        .request (registerRequest s.name s.email s.password)) ∧
    (¬(s.name ≠ "" ∧ s.email ≠ "" ∧ s.password ≠ "" ∧ s.repeatPassword ≠ "" ∧
        s.password = s.repeatPassword) →
      ∀ r, Part003.handleCreateAccountRequest s ≠ .request r) ∧
    (registerRequest s.name s.email s.password).body.map Prod.fst =
      ["name", "email", "password"] ∧
    ((registerRequest s.name s.email s.password).body.map Prod.fst).contains
      "repeatPassword" = false := by
  refine ⟨?_, ?_, rfl, rfl⟩
  · rintro ⟨hn, he, hp, hr, heq⟩
    simp [Part003.handleCreateAccountRequest, hn, he, hp, hr, heq]
  · intro h r
    unfold Part003.handleCreateAccountRequest
    by_cases h1 : s.name = "" ∨ s.email = "" ∨ s.password = "" ∨ s.repeatPassword = ""
    · simp [h1]
    · push_neg at h1
      obtain ⟨hn, he, hp, hr⟩ := h1
      have hne : s.password ≠ s.repeatPassword := fun heq => h ⟨hn, he, hp, hr, heq⟩
      simp [hn, he, hp, hr, hne]

/-- Witness for C8: the filled-in form sends exactly `{name, email, password}`,
and the half-empty form sends nothing. -/
theorem c8_witness :
    Part003.handleCreateAccountRequest
        { name := "Jane", email := "jane@x.com", password := "pw123456",
          repeatPassword := "pw123456", rememberMe := false } =
      .request (registerRequest "Jane" "jane@x.com" "pw123456") ∧
    ((registerRequest "Jane" "jane@x.com" "pw123456").body.map Prod.fst).contains
      "repeatPassword" = false ∧
    Part003.handleCreateAccountRequest
        { name := "", email := "jane@x.com", password := "pw123456",
          repeatPassword := "pw123456", rememberMe := false } ≠
      .request (registerRequest "" "jane@x.com" "pw123456") :=
  ⟨(c8_register_request_gating
      { name := "Jane", email := "jane@x.com", password := "pw123456",
        repeatPassword := "pw123456", rememberMe := false }).1 (by decide),
   (c8_register_request_gating
      { name := "Jane", email := "jane@x.com", password := "pw123456",
        repeatPassword := "pw123456", rememberMe := false }).2.2.2,
   (c8_register_request_gating
      { name := "", email := "jane@x.com", password := "pw123456",
        repeatPassword := "pw123456", rememberMe := false }).2.1 (by decide) _⟩

/-- C9: the dashboard's two render expressions are total: a date with no
notes entry renders the notes fallback, a date with no todos entry or an
empty list renders the to-do fallback, and the unguarded re-read of
`todos[selectedDate]` in the map branch is never reached on `undefined`;
the screen's lines are exactly these two renderers on the hardcoded maps. -/
theorem c9_dashboard_total_render
    (m : List (String × String)) (t : List (String × List String)) (d : String) :
    (m.lookup d = none → Part005.notesText m d = "No notes for this day") ∧
    (t.lookup d = none ∨ t.lookup d = some [] →
      Part005.todosView t d = .ok ["No to-dos for this day"]) ∧
    Part005.todosView t d ≠ .undefinedAccess ∧
    (Part005.DashboardScreen d).notesLine = Part005.notesText Part005.notes d ∧
    (Part005.DashboardScreen d).todoLines = Part005.todosView Part005.todos d := by
  refine ⟨?_, ?_, ?_, rfl, rfl⟩
  · intro h
    simp [Part005.notesText, h]
  · rintro (h | h) <;> simp [Part005.todosView, h]
  · unfold Part005.todosView
    rcases hl : t.lookup d with _ | l
    · simp [hl]
    · simp only [hl]
      split <;> simp

/-- Witness for C9: a date missing from the notes map and a date mapped to an
empty to-do list both render their fallback lines. -/
theorem c9_witness :
    Part005.notesText [] "2024-01-01" = "No notes for this day" ∧
    Part005.todosView [("2024-01-01", [])] "2024-01-01" =
      .ok ["No to-dos for this day"] ∧
    Part005.todosView [("2024-01-01", [])] "2024-01-01" ≠ .undefinedAccess := by
  have h := c9_dashboard_total_render [] [("2024-01-01", [])] "2024-01-01"
  exact ⟨h.1 (by decide), h.2.1 (Or.inr (by decide)), h.2.2.1⟩

/-- Folding `handleDayPress` over a non-empty run of presses keeps only the
last day's `dateString`. -/
theorem foldl_handleDayPress_eq_getLast :
    ∀ (presses : List Part005.CalendarDay) (init : String) (h : presses ≠ []),
      presses.foldl Part005.handleDayPress init = (presses.getLast h).dateString := by
  intro presses
  induction presses with
  | nil => intro init h; exact absurd rfl h
  | cons a t ih =>
    intro init h
    cases t with
    | nil => rfl
    | cons b t2 =>
      rw [List.foldl_cons, ih (Part005.handleDayPress init a) (by simp)]
      congr 1

/-- C10: after any non-empty sequence of day presses, `selectedDate` is the
most recently pressed day's `dateString`, and `markedDates` holds exactly one
entry, keyed by that date. -/
theorem c10_selected_date_last_press
    (init : String) (presses : List Part005.CalendarDay) (h : presses ≠ []) :
    presses.foldl Part005.handleDayPress init = (presses.getLast h).dateString ∧
    Part005.markedDates (presses.foldl Part005.handleDayPress init) =
      [((presses.getLast h).dateString,
        { selected := true, marked := true, selectedColor := "blue" })] ∧
    (Part005.markedDates (presses.foldl Part005.handleDayPress init)).length = 1 := by
  refine ⟨foldl_handleDayPress_eq_getLast presses init h, ?_, rfl⟩
  rw [foldl_handleDayPress_eq_getLast presses init h]
  rfl

/-- Witness for C10: two presses end with the second day selected and as the
single marked entry. -/
theorem c10_witness :
    ([⟨"2024-08-10"⟩, ⟨"2024-08-12"⟩] : List Part005.CalendarDay).foldl
        Part005.handleDayPress "" = "2024-08-12" ∧
    Part005.markedDates
        (([⟨"2024-08-10"⟩, ⟨"2024-08-12"⟩] : List Part005.CalendarDay).foldl
          Part005.handleDayPress "") =
      [("2024-08-12", { selected := true, marked := true, selectedColor := "blue" })] ∧
    (Part005.markedDates
        (([⟨"2024-08-10"⟩, ⟨"2024-08-12"⟩] : List Part005.CalendarDay).foldl
          Part005.handleDayPress "")).length = 1 :=
  c10_selected_date_last_press "" [⟨"2024-08-10"⟩, ⟨"2024-08-12"⟩] (by decide)

/-- Counterexample to C1 as stated: the spec's operation definition checks
validation before the conflict check, so a second register call with the
already-taken email but an empty name fails with ValidationError, not
ConflictError. -/
theorem c1_counterexample :
    (Backend.register Backend.emptyState "Jane" "jane@x.com" "pw123456").1 =
      .success ∧
    (Backend.register
        (Backend.register Backend.emptyState "Jane" "jane@x.com" "pw123456").2
        "" "jane@x.com" "pw2").1 = .validationError ∧
    (Backend.register
        (Backend.register Backend.emptyState "Jane" "jane@x.com" "pw123456").2
        "" "jane@x.com" "pw2").1 ≠ .conflictError :=
  ⟨by decide, by decide, by decide⟩

/-- C1 as amended: if one register call succeeds, every later register call
with the same email whose own name and password pass validation fails with
ConflictError (modelled from the spec; backend not in the source tree). -/
theorem c1_register_conflict
    (s s2 : Backend.ServiceState) (name email password name2 password2 : String)
    (hreg : Backend.register s name email password = (.success, s2))
    (hn : name2 ≠ "") (hp : password2 ≠ "") :
    (Backend.register s2 name2 email password2).1 = .conflictError := by
  unfold Backend.register at hreg
  by_cases hval :
      name = "" ∨ email = "" ∨ password = "" ∨ Backend.emailWellFormed email = false
  · rw [if_pos hval] at hreg
    simp at hreg
  · rw [if_neg hval] at hreg
    push_neg at hval
    obtain ⟨-, he, -, hw⟩ := hval
    have hw' : Backend.emailWellFormed email = true := by
      cases hq : Backend.emailWellFormed email
      · exact absurd hq hw
      · rfl
    by_cases hconf : Backend.emailRegistered s email = true
    · simp [hconf] at hreg
    · simp [hconf] at hreg
      subst hreg
      unfold Backend.register
      rw [if_neg (by
        push_neg
        exact ⟨hn, he, hp, by rw [hw']; exact fun hq => by cases hq⟩)]
      rw [if_pos (by simp [Backend.emailRegistered])]

/-- Witness for C1: registering `jane@x.com` once and then again with a valid
second form yields ConflictError. -/
theorem c1_witness :
    (Backend.register
        (Backend.register Backend.emptyState "Jane" "jane@x.com" "pw123456").2
        "Ann" "jane@x.com" "pw654321").1 = .conflictError :=
  c1_register_conflict Backend.emptyState
    (Backend.register Backend.emptyState "Jane" "jane@x.com" "pw123456").2
    "Jane" "jane@x.com" "pw123456" "Ann" "pw654321" (by decide) (by decide) (by decide)

/-- Counterexample to C3 as stated: the axios-based draft (`part_001`) never
reaches its `data.error` branch on an error-statused response — axios rejects
any non-2xx status — so a 400 response carrying
`{success: false, error: 'Invalid credentials'}` is shown as the generic
'Failed to login', not as the carried error string. -/
theorem c3_counterexample :
    (Part001.handleLogin { email := "jane@x.com", password := "pw", rememberMe := false }
        (.response 400 (some { success := false, error := "Invalid credentials" }))).alert =
      { title := "Error", message := some "Failed to login" } ∧
    ({ title := "Error", message := some "Failed to login" } : AlertMsg) ≠
      { title := "Error", message := some "Invalid credentials" } :=
  ⟨by decide, by decide⟩

/-- C3 as amended: on a body with `success = false`, the fetch-based handler
(`LoginScreen.js`) shows exactly the response's `error` string at any HTTP
status; the axios-based draft (`part_001`) shows it exactly for 2xx statuses
and shows the generic 'Failed to login' otherwise.  Each run issues exactly
the one login request — no retry. -/
theorem c3_login_error_display
    (st : LoginFormState) (status : Nat) (e : String) :
    (LoginScreen.handleLogin st (.response status (some { success := false, error := e }))).alert =
      { title := "Error", message := some e } ∧
    (LoginScreen.handleLogin st (.response status (some { success := false, error := e }))).requests =
      [loginRequest st.email st.password] ∧
    (200 ≤ status ∧ status < 300 →
      (Part001.handleLogin st (.response status (some { success := false, error := e }))).alert =
        { title := "Error", message := some e }) ∧
    (¬(200 ≤ status ∧ status < 300) →
      (Part001.handleLogin st (.response status (some { success := false, error := e }))).alert =
        { title := "Error", message := some "Failed to login" }) ∧
    (Part001.handleLogin st (.response status (some { success := false, error := e }))).requests =
      [loginRequest st.email st.password] := by
  refine ⟨rfl, rfl, ?_, ?_, rfl⟩ <;> intro h <;> simp [Part001.handleLogin, h]

/-- Witness for C3: a 200 and a 400 response, both with `success = false` and
error string 'Invalid credentials', run through both handlers. -/
theorem c3_witness :
    (LoginScreen.handleLogin { email := "jane@x.com", password := "pw", rememberMe := false }
        (.response 200 (some { success := false, error := "Invalid credentials" }))).alert =
      { title := "Error", message := some "Invalid credentials" } ∧
    (Part001.handleLogin { email := "jane@x.com", password := "pw", rememberMe := false }
        (.response 200 (some { success := false, error := "Invalid credentials" }))).alert =
      { title := "Error", message := some "Invalid credentials" } ∧
    (Part001.handleLogin { email := "jane@x.com", password := "pw", rememberMe := false }
        (.response 200 (some { success := false, error := "Invalid credentials" }))).requests =
      [loginRequest "jane@x.com" "pw"] := by
  have h := c3_login_error_display
    { email := "jane@x.com", password := "pw", rememberMe := false } 200 "Invalid credentials"
  exact ⟨h.1, h.2.2.1 (by decide), h.2.2.2.2⟩

/-- Counterexample to C4 as stated: `part_003`'s client-side validation does
not check the email format, so a register attempt with the malformed email
`not-an-email` (all fields filled, passwords matching) issues the HTTP
request instead of reporting a validation error. -/
theorem c4_counterexample :
    Backend.emailWellFormed "not-an-email" = false ∧
    Part003.handleCreateAccountRequest
        { name := "Jane", email := "not-an-email", password := "pw123456",
          repeatPassword := "pw123456", rememberMe := false } =
      .request (registerRequest "Jane" "not-an-email" "pw123456") :=
  ⟨by decide, by decide⟩

/-- C4 as amended: the backend operation (modelled from the spec) fails with
ValidationError and creates no user whenever a field is missing or the email
is malformed; the client handler of `part_003` reports a validation error and
issues no HTTP request when a field is empty, but checks no email format —
with all fields filled it posts the form's email as it is, malformed or not. -/
theorem c4_validation_boundary
    (s : Backend.ServiceState) (n e p : String) (f : AuthFormState)
    (hbad : n = "" ∨ e = "" ∨ p = "" ∨ Backend.emailWellFormed e = false) :
    (Backend.register s n e p).1 = .validationError ∧
    (Backend.register s n e p).2 = s ∧
    (f.name = "" ∨ f.email = "" ∨ f.password = "" ∨ f.repeatPassword = "" →
      Part003.handleCreateAccountRequest f =
        .validationError "All fields are required.") ∧
    (f.name ≠ "" ∧ f.email ≠ "" ∧ f.password ≠ "" ∧ f.repeatPassword ≠ "" ∧
        f.password = f.repeatPassword →
      Part003.handleCreateAccountRequest f =
        .request (registerRequest f.name f.email f.password)) := by
  refine ⟨?_, ?_, ?_, ?_⟩
  · unfold Backend.register
    rw [if_pos hbad]
  · unfold Backend.register
    rw [if_pos hbad]
  · intro h
    simp [Part003.handleCreateAccountRequest, h]
  · rintro ⟨hn, he, hp, hr, heq⟩
    simp [Part003.handleCreateAccountRequest, hn, he, hp, hr, heq]

/-- Witness for C4: a register call with an empty email is rejected and the
store is unchanged; the form with an empty name is blocked client-side, the
form with the malformed email is posted. -/
theorem c4_witness :
    (Backend.register Backend.emptyState "Jane" "" "pw123456").1 =
      .validationError ∧
    (Backend.register Backend.emptyState "Jane" "" "pw123456").2 =
      Backend.emptyState ∧
    Part003.handleCreateAccountRequest
        { name := "", email := "jane@x.com", password := "pw123456",
          repeatPassword := "pw123456", rememberMe := false } =
      .validationError "All fields are required." ∧
    Part003.handleCreateAccountRequest
        { name := "Jane", email := "not-an-email", password := "pw123456",
          repeatPassword := "pw123456", rememberMe := false } =
      .request (registerRequest "Jane" "not-an-email" "pw123456") := by
  have h1 := c4_validation_boundary Backend.emptyState "Jane" "" "pw123456"
    { name := "", email := "jane@x.com", password := "pw123456",
      repeatPassword := "pw123456", rememberMe := false }
    (Or.inr (Or.inl rfl))
  have h2 := c4_validation_boundary Backend.emptyState "Jane" "" "pw123456"
    { name := "Jane", email := "not-an-email", password := "pw123456",
      repeatPassword := "pw123456", rememberMe := false }
    (Or.inr (Or.inl rfl))
  exact ⟨h1.1, h1.2.1, h1.2.2.1 (by decide), h2.2.2.2 (by decide)⟩

/-- Counterexample to C6 as stated: `DashboardScreen` issues no request at
all and renders the hardcoded sample note for 2024-08-10 even though the only
user of the (spec-modelled) service owns no records — the display is not the
authenticated user's aggregation. -/
theorem c6_counterexample :
    (Part005.DashboardScreen "2024-08-10").requests = [] ∧
    (Part005.DashboardScreen "2024-08-10").notesLine = "Meeting with team" ∧
    Backend.dashboardFor
        { users := [{ name := "U", email := "u@x.com", passwordHash := "h" }],
          notes := [], todos := [] } "u@x.com" = ([], []) ∧
    (Part005.DashboardScreen "2024-08-10").notesLine ≠ "No notes for this day" :=
  ⟨rfl, by decide, rfl, by decide⟩

/-- C6 as amended: the spec-modelled dashboard endpoint requires
authentication (AuthError without a token) and aggregates the caller's own
records, but the `DashboardScreen` of the source never calls it: it issues no
request and renders the two hardcoded in-file maps, independent of any user
or token. -/
theorem c6_dashboard_static (d owner : String) (s : Backend.ServiceState) :
    (Part005.DashboardScreen d).requests = [] ∧
    (Part005.DashboardScreen d).notesLine = Part005.notesText Part005.notes d ∧
    (Part005.DashboardScreen d).todoLines = Part005.todosView Part005.todos d ∧
    Backend.dashboardEndpoint s none = .authError ∧
    Backend.dashboardEndpoint s (some owner) =
      .ok (Backend.dashboardFor s owner).1 (Backend.dashboardFor s owner).2 :=
  ⟨rfl, rfl, rfl, rfl, rfl⟩

end TaskBite
